import Mathlib

/-!
Shallow embedding of the pg_plugins repository: the streaming receiver
(receiver_raw/receiver_raw.c) and the utility hook
(hook_utility/hook_utility.c).

Byte buffers are lists of Nat, each element one byte value.  64-bit
integers (int64, XLogRecPtr) are Nat values below 2^64, read as the
unsigned value of the machine word; the int64 value -1 corresponds to
the Nat 2^64 - 1.  Reading a byte past the end of a buffer is modelled
by List.getD with default 0; the instrumented keepalive decoder below
records which indices the code touches so that out-of-bounds accesses
are observable.
-/

namespace ReceiverRaw

/-- The four bytes stored by htonl of a 32-bit value, most significant
byte first (fe_sendint64, receiver_raw.c lines 125-139). -/
def htonl4 (n : Nat) : List Nat :=
  [n / 16777216 % 256, n / 65536 % 256, n / 256 % 256, n % 256]

/-- The 32-bit value read back by memcpy plus ntohl from four bytes
(fe_recvint64, receiver_raw.c lines 144-161). -/
def ntohl4 (b0 b1 b2 b3 : Nat) : Nat :=
  ((b0 * 256 + b1) * 256 + b2) * 256 + b3

/-- fe_sendint64 (receiver_raw.c lines 125-139): the high 32-bit half
of the int64 first, then the low half, each in network byte order. -/
def fe_sendint64 (i : Nat) : List Nat :=
  htonl4 (i / 4294967296 % 4294967296) ++ htonl4 (i % 4294967296)

/-- fe_recvint64 (receiver_raw.c lines 144-161) applied at offset off
of the buffer, modelling the call fe_recvint64(&buf[off]).  The code
does result = h32; result <<= 32; result |= l32 with h32 < 2^32, which
is h32 * 2^32 + l32.  Bytes past the end of the buffer read as 0. -/
def fe_recvint64 (buf : List Nat) (off : Nat) : Nat :=
  ntohl4 (buf.getD off 0) (buf.getD (off + 1) 0)
         (buf.getD (off + 2) 0) (buf.getD (off + 3) 0) * 4294967296 +
  ntohl4 (buf.getD (off + 4) 0) (buf.getD (off + 5) 0)
         (buf.getD (off + 6) 0) (buf.getD (off + 7) 0)

/-- InvalidXLogRecPtr, the invalid/unset log position: PostgreSQL
defines it as 0 (access/xlogdefs.h). -/
def InvalidXLogRecPtr : Nat := 0

/-- The two position globals of receiver_raw.c (lines 53-54):
output_written_lsn and output_fsync_lsn. -/
structure RState where
  output_written_lsn : Nat
  output_fsync_lsn : Nat
deriving DecidableEq

/-- Initial state: both positions start as InvalidXLogRecPtr
(receiver_raw.c lines 53-54). -/
def initState : RState := ⟨InvalidXLogRecPtr, InvalidXLogRecPtr⟩

/-- The position-tracker update performed on a keepalive
(receiver_raw.c lines 325-326): output_written_lsn =
Max(walEnd, output_written_lsn); output_fsync_lsn =
output_written_lsn. -/
def observe (s : RState) (walEnd : Nat) : RState :=
  let w := max walEnd s.output_written_lsn
  ⟨w, w⟩

/-- The bytes assembled into replybuf by sendFeedback (receiver_raw.c
lines 83-120): tag byte 114 (the character value of r), write and
flush positions, InvalidXLogRecPtr for apply, the timestamp, and a
final 0 byte because no reply is requested from the server. -/
def sendFeedback_msg (written fsync now : Nat) : List Nat :=
  114 :: (fe_sendint64 written ++ fe_sendint64 fsync ++
          fe_sendint64 InvalidXLogRecPtr ++ fe_sendint64 now ++ [0])

/-- Outcome of the keepalive branch. -/
inductive KAOutcome where
  | truncated
  | decoded (walEnd : Nat) (replyRequested : Bool)
deriving DecidableEq

/-- Instrumented keepalive branch (receiver_raw.c lines 305-335): the
outcome together with the list of buffer indices the code reads, in
program order.  The tag test reads index 0; fe_recvint64(&copybuf[1])
reads indices 1 through 8 unconditionally, before the header-size
check rc < 17 + 1; only when that check passes is index 17
(replyRequested) read. -/
def keepalive_parse (buf : List Nat) : KAOutcome × List Nat :=
  let walEnd := fe_recvint64 buf 1
  if buf.length < 17 + 1 then
    (.truncated, [0, 1, 2, 3, 4, 5, 6, 7, 8])
  else
    (.decoded walEnd (buf.getD 17 0 != 0), [0, 1, 2, 3, 4, 5, 6, 7, 8, 17])

/-- Classification of the SPI_execute return code used by the logging
at receiver_raw.c lines 378-389: SPI_OK_INSERT, SPI_OK_UPDATE,
SPI_OK_DELETE, and everything else (the apply-error case). -/
inductive SpiCode where
  | ok_insert
  | ok_update
  | ok_delete
  | other
deriving DecidableEq

/-- Why the session exits, or how a drain cycle ends. -/
inductive ExitReason where
  | truncatedKeepalive
  | unknownTag
  | truncatedWal
  | feedbackFail
  | copyStreamError
  | endOfStream
deriving DecidableEq

/-- The reasons that make the process exit from inside the inner
receive loop, before the cycle reaches SPI_finish and
CommitTransactionCommand (receiver_raw.c lines 329-369 and 347-348). -/
def ExitReason.isInnerLoopFatal : ExitReason → Bool
  | .truncatedKeepalive => true
  | .unknownTag => true
  | .truncatedWal => true
  | .feedbackFail => true
  | .copyStreamError => false
  | .endOfStream => false

/-- Observable side effects of one drain cycle, in program order. -/
inductive Action where
  | apply (stmt : List Nat) (outcome : SpiCode)
  | feedback (msg : List Nat)
  | commit
  | procExit (code : Nat) (reason : ExitReason)
deriving DecidableEq

/-- Result of processing one COPY buffer inside the inner loop:
either the loop continues with an updated state, or proc_exit is
reached. -/
inductive StepOut where
  | next (s : RState) (acts : List Action)
  | fatal (s : RState) (acts : List Action)
deriving DecidableEq

/-- One result of PQgetCopyData in the inner loop (receiver_raw.c
line 296): a data buffer of rc > 0 bytes together with the outcome the
local database would report for its statement and whether the
connection would accept a feedback packet, or rc = 0 (no data
pending), rc = -1 (end of the copy stream), rc = -2 (read failure). -/
inductive ReadEvent where
  | data (buf : List Nat) (spi : SpiCode) (sendOk : Bool)
  | wouldBlock
  | endOfStream
  | readError
deriving DecidableEq

/-- Processing of one received COPY buffer, receiver_raw.c lines
305-391.  A buffer whose first byte is 107 (k) has its position field
read at offset 1 and the tracker updated before the header-size check
rc < 17 + 1; if the check fails the process exits.  Otherwise, when
byte 17 is nonzero, sendFeedback runs with the freshly updated
positions and a send failure exits the process (lines 342-349).  Any
other first byte than 119 (w) exits the process (lines 352-357).  A w
buffer shorter than 25 + 1 bytes exits the process (lines 360-369);
otherwise the payload starting at offset 25 is executed and the loop
continues whatever the SPI outcome was (lines 371-391). -/
def processCopyBuf (s : RState) (now : Nat) (sendOk : Bool) (spi : SpiCode)
    (buf : List Nat) : StepOut :=
  if buf.getD 0 0 = 107 then
    let s1 := observe s (fe_recvint64 buf 1)
    if buf.length < 17 + 1 then
      .fatal s1 [.procExit 1 .truncatedKeepalive]
    else if buf.getD 17 0 != 0 then
      if sendOk then
        .next s1 [.feedback (sendFeedback_msg s1.output_written_lsn
                                              s1.output_fsync_lsn now)]
      else
        .fatal s1 [.procExit 1 .feedbackFail]
    else
      .next s1 []
  else if buf.getD 0 0 ≠ 119 then
    .fatal s [.procExit 1 .unknownTag]
  else if buf.length < 25 + 1 then
    .fatal s [.procExit 1 .truncatedWal]
  else
    .next s [.apply (buf.drop 25) spi]

/-- The trace of one drain cycle (receiver_raw.c lines 294-479) over a
sequence of PQgetCopyData results, together with the final position
state.  Data buffers are processed in order; an in-loop proc_exit ends
the trace with no commit.  When rc = 0 the inner loop breaks and the
cycle commits, then moves to the blocking select wait; rc = -1 commits,
breaks the outer loop and exits with status 0 (line 483); rc = -2
commits and then exits with status 1 (lines 474-479).  An exhausted
event list is read as rc = 0. -/
def drainTrace (s : RState) (now : Nat) : List ReadEvent → List Action × RState
  | [] => ([.commit], s)
  | .data buf spi ok :: rest =>
    match processCopyBuf s now ok spi buf with
    | .next s1 acts =>
      let r := drainTrace s1 now rest
      (acts ++ r.1, r.2)
    | .fatal s1 acts => (acts, s1)
  | .wouldBlock :: _ => ([.commit], s)
  | .endOfStream :: _ => ([.commit, .procExit 0 .endOfStream], s)
  | .readError :: _ => ([.commit, .procExit 1 .copyStreamError], s)

/-- Wire image of a keepalive frame as the origin sends it (spec
section 6, inbound COPY stream frames): tag byte 107 (k), 8-byte
big-endian position, 8-byte big-endian timestamp, one reply-flag
byte.  Used to build concrete inbound buffers for the scenarios. -/
def keepaliveFrame (pos time : Nat) (reply : Bool) : List Nat :=
  107 :: (fe_sendint64 pos ++ fe_sendint64 time ++ [if reply then 1 else 0])

end ReceiverRaw

namespace HookUtility

/-- The shape of the utility statement as far as dbrestrict_utility
inspects it (hook_utility.c lines 48-70): either a DropdbStmt carrying
the database name to drop, or any other statement tag. -/
inductive UtilityStmt where
  | dropdbStmt (dbname : String)
  | otherStmt
deriving DecidableEq

/-- dbrestrict_utility (hook_utility.c lines 36-84), reduced to
whether it raises the insufficient-privilege error: on a DropdbStmt it
raises exactly when the statement names hook_dbname and the current
user name differs from hook_username; on every other statement tag,
and when no error is raised, it only falls through to the previous or
standard utility processing. -/
def dbrestrict_utility (hook_dbname hook_username : String)
    (parsetree : UtilityStmt) (username : String) : Bool :=
  match parsetree with
  | .dropdbStmt dbname => dbname == hook_dbname && !(username == hook_username)
  | .otherStmt => false

end HookUtility

namespace ReceiverRaw

/-- fe_recvint64 on an explicit eight-byte buffer at offset 0. -/
theorem fe_recvint64_explicit (a0 a1 a2 a3 a4 a5 a6 a7 : Nat) :
    fe_recvint64 [a0, a1, a2, a3, a4, a5, a6, a7] 0 =
      ntohl4 a0 a1 a2 a3 * 4294967296 + ntohl4 a4 a5 a6 a7 := rfl

/-- fe_sendint64 written out byte by byte. -/
theorem fe_sendint64_explicit (i : Nat) :
    fe_sendint64 i =
      [i / 4294967296 % 4294967296 / 16777216 % 256,
       i / 4294967296 % 4294967296 / 65536 % 256,
       i / 4294967296 % 4294967296 / 256 % 256,
       i / 4294967296 % 4294967296 % 256,
       i % 4294967296 / 16777216 % 256,
       i % 4294967296 / 65536 % 256,
       i % 4294967296 / 256 % 256,
       i % 4294967296 % 256] := rfl

/-- Reassembling the four bytes of a 32-bit value gives it back. -/
theorem ntohl4_htonl4_val (n : Nat) (h : n < 4294967296) :
    ntohl4 (n / 16777216 % 256) (n / 65536 % 256) (n / 256 % 256) (n % 256) = n := by
  unfold ntohl4
  omega

/-- Splitting a 32-bit value assembled from four byte values gives the
bytes back. -/
theorem htonl4_of_bytes (b0 b1 b2 b3 : Nat)
    (h0 : b0 < 256) (h1 : b1 < 256) (h2 : b2 < 256) (h3 : b3 < 256) :
    htonl4 (((b0 * 256 + b1) * 256 + b2) * 256 + b3) = [b0, b1, b2, b3] := by
  unfold htonl4
  simp only [List.cons.injEq, and_true]
  omega

/-- C5: for every 64-bit value, fe_sendint64 followed by fe_recvint64
returns the value (decode is a left inverse of encode), and for every
eight-byte field of a valid frame, fe_recvint64 followed by
fe_sendint64 returns the same eight bytes, so the position and
timestamp fields of a keepalive round-trip exactly. -/
theorem int64_bigendian_roundtrip :
    (∀ i : Nat, i < 18446744073709551616 → fe_recvint64 (fe_sendint64 i) 0 = i) ∧
    (∀ b0 b1 b2 b3 b4 b5 b6 b7 : Nat,
      b0 < 256 → b1 < 256 → b2 < 256 → b3 < 256 →
      b4 < 256 → b5 < 256 → b6 < 256 → b7 < 256 →
      fe_sendint64 (fe_recvint64 [b0, b1, b2, b3, b4, b5, b6, b7] 0) =
        [b0, b1, b2, b3, b4, b5, b6, b7]) := by
  constructor
  · intro i hi
    rw [fe_sendint64_explicit, fe_recvint64_explicit]
    rw [ntohl4_htonl4_val _ (Nat.mod_lt _ (by norm_num)),
        ntohl4_htonl4_val _ (Nat.mod_lt _ (by norm_num))]
    omega
  · intro b0 b1 b2 b3 b4 b5 b6 b7 h0 h1 h2 h3 h4 h5 h6 h7
    rw [fe_recvint64_explicit]
    have hhi : ntohl4 b0 b1 b2 b3 < 4294967296 := by unfold ntohl4; omega
    have hlo : ntohl4 b4 b5 b6 b7 < 4294967296 := by unfold ntohl4; omega
    have e1 : (ntohl4 b0 b1 b2 b3 * 4294967296 + ntohl4 b4 b5 b6 b7) /
        4294967296 % 4294967296 = ntohl4 b0 b1 b2 b3 := by omega
    have e2 : (ntohl4 b0 b1 b2 b3 * 4294967296 + ntohl4 b4 b5 b6 b7) %
        4294967296 = ntohl4 b4 b5 b6 b7 := by omega
    unfold fe_sendint64
    rw [e1, e2]
    rw [show ntohl4 b0 b1 b2 b3 = ((b0 * 256 + b1) * 256 + b2) * 256 + b3 from rfl]
    rw [show ntohl4 b4 b5 b6 b7 = ((b4 * 256 + b5) * 256 + b6) * 256 + b7 from rfl]
    rw [htonl4_of_bytes b0 b1 b2 b3 h0 h1 h2 h3,
        htonl4_of_bytes b4 b5 b6 b7 h4 h5 h6 h7]
    rfl

/-- Witness for C5, at the position value 500 and a concrete field. -/
theorem int64_bigendian_roundtrip_witness :
    fe_recvint64 (fe_sendint64 500) 0 = 500 ∧
    fe_sendint64 (fe_recvint64 [1, 2, 3, 4, 5, 6, 7, 8] 0) =
      [1, 2, 3, 4, 5, 6, 7, 8] :=
  ⟨int64_bigendian_roundtrip.1 500 (by norm_num),
   int64_bigendian_roundtrip.2 1 2 3 4 5 6 7 8 (by norm_num) (by norm_num)
     (by norm_num) (by norm_num) (by norm_num) (by norm_num) (by norm_num)
     (by norm_num)⟩

/-- Folding observe leaves the written position as the running max. -/
theorem observe_foldl_written (ps : List Nat) :
    ∀ s : RState, (ps.foldl observe s).output_written_lsn
      = ps.foldl max s.output_written_lsn := by
  induction ps with
  | nil => intro s; rfl
  | cons p rest ih =>
    intro s
    simp only [List.foldl_cons]
    rw [ih]
    simp [observe, Nat.max_comm]

/-- C4: for any sequence of observed keepalive positions, starting
from the initial invalid (zero) positions, the tracked written
position after all observe calls is the maximum of the sequence (with
0 as identity), and immediately after each individual observe call the
flushed position equals the written position. -/
theorem tracker_observe_max (ps : List Nat) :
    (ps.foldl observe initState).output_written_lsn = ps.foldl max 0 ∧
    ∀ (s : RState) (p : Nat),
      (observe s p).output_fsync_lsn = (observe s p).output_written_lsn := by
  constructor
  · rw [observe_foldl_written]; rfl
  · intro s p; rfl

/-- Witness for C4 on the concrete sequence 3, 1, 2. -/
theorem tracker_observe_max_witness :
    (([3, 1, 2] : List Nat).foldl observe initState).output_written_lsn
      = ([3, 1, 2] : List Nat).foldl max 0 ∧
    ∀ (s : RState) (p : Nat),
      (observe s p).output_fsync_lsn = (observe s p).output_written_lsn :=
  tracker_observe_max [3, 1, 2]

end ReceiverRaw

namespace ReceiverRaw

/-- C1, counterexample: the one-byte buffer holding just the tag k is
shorter than the 18-byte minimum header, and the keepalive branch does
reach the truncated-header exit, but index 8 is among the indices the
code reads before the length check fails, and 8 is not below the
buffer length: bytes past the end of the buffer are accessed. -/
theorem keepalive_short_reads_past_end :
    ([107] : List Nat).getD 0 0 = 107 ∧ ([107] : List Nat).length < 18 ∧
    (keepalive_parse [107]).1 = KAOutcome.truncated ∧
    ¬ (∀ i ∈ (keepalive_parse [107]).2, i < ([107] : List Nat).length) := by
  decide

/-- C1, amended: every buffer tagged k that is shorter than 18 bytes
makes the decoder fail with the truncated-header exit, but only after
the 8-byte position field at indices 1 through 8 has been read
unconditionally; the indices touched before the length check are
exactly 0 through 8, so no byte past the end is accessed only when the
buffer holds at least 9 bytes. -/
theorem keepalive_truncated_access (buf : List Nat)
    (_htag : buf.getD 0 0 = 107) (hlen : buf.length < 18) :
    (keepalive_parse buf).1 = KAOutcome.truncated ∧
    (keepalive_parse buf).2 = [0, 1, 2, 3, 4, 5, 6, 7, 8] ∧
    (9 ≤ buf.length → ∀ i ∈ (keepalive_parse buf).2, i < buf.length) := by
  unfold keepalive_parse
  rw [if_pos (by omega)]
  refine ⟨rfl, rfl, ?_⟩
  intro h i hi
  simp at hi
  omega

/-- Witness for C1 on a 17-byte buffer tagged k. -/
theorem keepalive_truncated_access_witness :
    (keepalive_parse ((107 : Nat) :: List.replicate 16 0)).1 = KAOutcome.truncated ∧
    (keepalive_parse ((107 : Nat) :: List.replicate 16 0)).2 = [0, 1, 2, 3, 4, 5, 6, 7, 8] ∧
    (9 ≤ ((107 : Nat) :: List.replicate 16 0).length →
      ∀ i ∈ (keepalive_parse ((107 : Nat) :: List.replicate 16 0)).2,
        i < ((107 : Nat) :: List.replicate 16 0).length) :=
  keepalive_truncated_access ((107 : Nat) :: List.replicate 16 0)
    (by decide) (by decide)

/-- C2, counterexample: with written = flushed = 100 and timestamp 0,
the feedback bytes differ from the layout the claim states, in which
the apply field carries the int64 value -1 (the Nat 2^64 - 1): the
code sends InvalidXLogRecPtr, which is 0, not -1. -/
theorem sendFeedback_apply_sentinel_not_neg1 :
    sendFeedback_msg 100 100 0
      ≠ 114 :: (fe_sendint64 100 ++ fe_sendint64 100 ++
                fe_sendint64 (2 ^ 64 - 1) ++ fe_sendint64 0 ++ [0]) := by
  decide

/-- C2, amended: for written = flushed = 100 and any timestamp, the
feedback message is exactly 34 bytes: the tag byte r (114), 8-byte
big-endian 100 twice, eight zero bytes for the apply position (the
invalid-position sentinel InvalidXLogRecPtr = 0), the 8-byte
big-endian timestamp, and a final 0 reply-request byte. -/
theorem sendFeedback_layout_100 (now : Nat) :
    sendFeedback_msg 100 100 now =
      [114, 0, 0, 0, 0, 0, 0, 0, 100,
            0, 0, 0, 0, 0, 0, 0, 100,
            0, 0, 0, 0, 0, 0, 0, 0] ++ fe_sendint64 now ++ [0] ∧
    (sendFeedback_msg 100 100 now).length = 34 := ⟨rfl, rfl⟩

/-- Witness for C2 at timestamp 7. -/
theorem sendFeedback_layout_100_witness :
    sendFeedback_msg 100 100 7 =
      [114, 0, 0, 0, 0, 0, 0, 0, 100,
            0, 0, 0, 0, 0, 0, 0, 100,
            0, 0, 0, 0, 0, 0, 0, 0] ++ fe_sendint64 7 ++ [0] ∧
    (sendFeedback_msg 100 100 7).length = 34 :=
  sendFeedback_layout_100 7

/-- The WalData branch on a buffer of at least 26 bytes: the payload
after the 25-byte header is applied and the loop continues. -/
theorem processCopyBuf_wal_ok (s : RState) (now : Nat) (sendOk : Bool)
    (spi : SpiCode) (buf : List Nat)
    (htag : buf.getD 0 0 = 119) (hlen : 26 ≤ buf.length) :
    processCopyBuf s now sendOk spi buf = .next s [.apply (buf.drop 25) spi] := by
  unfold processCopyBuf
  rw [if_neg (by omega), if_neg (by omega), if_neg (by omega)]

/-- The WalData branch on a buffer shorter than 26 bytes: the process
exits at the header-size check. -/
theorem processCopyBuf_wal_short (s : RState) (now : Nat) (sendOk : Bool)
    (spi : SpiCode) (buf : List Nat)
    (htag : buf.getD 0 0 = 119) (hlen : buf.length < 26) :
    processCopyBuf s now sendOk spi buf = .fatal s [.procExit 1 .truncatedWal] := by
  unfold processCopyBuf
  rw [if_neg (by omega), if_neg (by omega), if_pos (by omega)]

/-- C3, counterexample: a buffer of exactly the 25-byte WalData header
with an empty payload is rejected: the code checks rc < hdr_len + 1,
so it exits as a truncated frame instead of decoding an empty
statement. -/
theorem waldata_header_only_rejected :
    ((119 : Nat) :: List.replicate 24 0).length = 25 ∧
    processCopyBuf ⟨0, 0⟩ 0 true SpiCode.other ((119 : Nat) :: List.replicate 24 0)
      = StepOut.fatal ⟨0, 0⟩ [Action.procExit 1 ExitReason.truncatedWal] := by
  decide

/-- C3, amended: a buffer tagged w fails with the truncated-frame exit
exactly when it is shorter than 26 bytes, that is the 25-byte header
plus at least one payload byte; a buffer of exactly the 25-byte header
is rejected rather than treated as an empty no-op statement, and from
26 bytes on the payload after the header is applied. -/
theorem waldata_decode_boundary (s : RState) (now : Nat) (sendOk : Bool)
    (spi : SpiCode) (buf : List Nat) (htag : buf.getD 0 0 = 119) :
    (buf.length < 26 →
      processCopyBuf s now sendOk spi buf
        = StepOut.fatal s [Action.procExit 1 ExitReason.truncatedWal]) ∧
    (26 ≤ buf.length →
      processCopyBuf s now sendOk spi buf
        = StepOut.next s [Action.apply (buf.drop 25) spi]) :=
  ⟨fun hlen => processCopyBuf_wal_short s now sendOk spi buf htag hlen,
   fun hlen => processCopyBuf_wal_ok s now sendOk spi buf htag hlen⟩

/-- Witness for C3 on a 26-byte w buffer. -/
theorem waldata_decode_boundary_witness :
    (((119 : Nat) :: List.replicate 25 65).length < 26 →
      processCopyBuf ⟨0, 0⟩ 0 true SpiCode.other ((119 : Nat) :: List.replicate 25 65)
        = StepOut.fatal ⟨0, 0⟩ [Action.procExit 1 ExitReason.truncatedWal]) ∧
    (26 ≤ ((119 : Nat) :: List.replicate 25 65).length →
      processCopyBuf ⟨0, 0⟩ 0 true SpiCode.other ((119 : Nat) :: List.replicate 25 65)
        = StepOut.next ⟨0, 0⟩ [Action.apply (((119 : Nat) :: List.replicate 25 65).drop 25)
            SpiCode.other]) :=
  waldata_decode_boundary ⟨0, 0⟩ 0 true SpiCode.other
    ((119 : Nat) :: List.replicate 25 65) (by decide)

end ReceiverRaw

namespace ReceiverRaw

/-- C6: a received frame whose first byte is neither k (107) nor w
(119) is fatal: the drain cycle performs exactly one action, the
process exit with status 1 for the unknown tag, whatever frames would
have followed; no commit happens and no later frame is processed. -/
theorem unknown_tag_fatal_exit (s : RState) (now : Nat) (spi : SpiCode)
    (sendOk : Bool) (buf : List Nat) (rest : List ReadEvent)
    (h1 : buf.getD 0 0 ≠ 107) (h2 : buf.getD 0 0 ≠ 119) :
    drainTrace s now (ReadEvent.data buf spi sendOk :: rest)
      = ([Action.procExit 1 ExitReason.unknownTag], s) := by
  have hp : processCopyBuf s now sendOk spi buf
      = .fatal s [.procExit 1 .unknownTag] := by
    unfold processCopyBuf
    rw [if_neg h1, if_pos h2]
  simp [drainTrace, hp]

/-- Witness for C6 on the single frame whose first byte is x (120). -/
theorem unknown_tag_fatal_exit_witness :
    drainTrace initState 0 [ReadEvent.data [120] SpiCode.other true]
      = ([Action.procExit 1 ExitReason.unknownTag], initState) :=
  unknown_tag_fatal_exit initState 0 SpiCode.other true [120] []
    (by decide) (by decide)

/-- C7: when a keepalive frame with position 500 and the reply flag
set arrives and the tracked written position is at most 500, the cycle
first updates both tracked positions to 500 and then immediately emits
the feedback message built from write = flush = 500: the feedback is
the first action of the trace, before any action of the following
frames and before any commit, and the rest of the cycle continues from
the updated state. -/
theorem keepalive_reply_updates_then_feedback (s : RState) (now time : Nat)
    (spi : SpiCode) (rest : List ReadEvent)
    (hpos : s.output_written_lsn ≤ 500) :
    drainTrace s now (ReadEvent.data (keepaliveFrame 500 time true) spi true :: rest)
      = (Action.feedback (sendFeedback_msg 500 500 now) ::
           (drainTrace ⟨500, 500⟩ now rest).1,
         (drainTrace ⟨500, 500⟩ now rest).2) := by
  have h500 : fe_recvint64 (keepaliveFrame 500 time true) 1 = 500 := by
    norm_num [fe_recvint64, keepaliveFrame, fe_sendint64, htonl4, ntohl4]
  have hlen18 : (keepaliveFrame 500 time true).length = 18 := by
    simp [keepaliveFrame, fe_sendint64, htonl4]
  have hobs : observe s (500 : Nat) = ⟨500, 500⟩ := by
    unfold observe
    simp [Nat.max_eq_left hpos]
  have hp : processCopyBuf s now true spi (keepaliveFrame 500 time true)
      = .next ⟨500, 500⟩ [.feedback (sendFeedback_msg 500 500 now)] := by
    unfold processCopyBuf
    rw [if_pos (show (keepaliveFrame 500 time true).getD 0 0 = 107 by
          simp [keepaliveFrame])]
    rw [if_neg (show ¬ (keepaliveFrame 500 time true).length < 17 + 1 by
          rw [hlen18]; omega)]
    rw [if_pos (show ((keepaliveFrame 500 time true).getD 17 0 != 0) = true by
          norm_num [keepaliveFrame, fe_sendint64, htonl4])]
    rw [if_pos (show (true : Bool) = true from rfl)]
    rw [h500, hobs]
  simp [drainTrace, hp]

/-- Witness for C7 from the initial state with timestamp fields 0. -/
theorem keepalive_reply_updates_then_feedback_witness :
    drainTrace initState 0
        [ReadEvent.data (keepaliveFrame 500 0 true) SpiCode.other true]
      = (Action.feedback (sendFeedback_msg 500 500 0) ::
           (drainTrace ⟨500, 500⟩ 0 []).1,
         (drainTrace ⟨500, 500⟩ 0 []).2) :=
  keepalive_reply_updates_then_feedback initState 0 0 SpiCode.other []
    (by decide)

/-- C8: a WalData frame whose statement fails against the local
database (SPI outcome other than insert, update or delete) only
contributes an apply action recording that outcome: the drain loop
continues with the following frames from the same position state, no
exit happens because of the failed statement, and the cycle goes on to
whatever the remaining frames produce. -/
theorem apply_failure_continues (s : RState) (now : Nat) (sendOk : Bool)
    (buf : List Nat) (rest : List ReadEvent)
    (htag : buf.getD 0 0 = 119) (hlen : 26 ≤ buf.length) :
    drainTrace s now (ReadEvent.data buf SpiCode.other sendOk :: rest)
      = (Action.apply (buf.drop 25) SpiCode.other :: (drainTrace s now rest).1,
         (drainTrace s now rest).2) := by
  have hp := processCopyBuf_wal_ok s now sendOk SpiCode.other buf htag hlen
  simp [drainTrace, hp]

/-- Witness for C8: a failing statement followed by end of input still
commits the batch. -/
theorem apply_failure_continues_witness :
    drainTrace initState 0
        [ReadEvent.data ((119 : Nat) :: List.replicate 25 65) SpiCode.other true]
      = (Action.apply (((119 : Nat) :: List.replicate 25 65).drop 25) SpiCode.other ::
           (drainTrace initState 0 []).1,
         (drainTrace initState 0 []).2) :=
  apply_failure_continues initState 0 true ((119 : Nat) :: List.replicate 25 65) []
    (by decide) (by decide)

/-- When processing one buffer continues the loop, its actions contain
no commit and no process exit. -/
theorem processCopyBuf_next_acts (s : RState) (now : Nat) (sendOk : Bool)
    (spi : SpiCode) (buf : List Nat) (s1 : RState) (acts : List Action)
    (h : processCopyBuf s now sendOk spi buf = .next s1 acts) :
    Action.commit ∉ acts ∧ ∀ c r, Action.procExit c r ∉ acts := by
  unfold processCopyBuf at h
  split_ifs at h <;>
    first
      | exact StepOut.noConfusion h
      | (injection h with e1 e2; subst e2; simp)

/-- When processing one buffer exits the process, the only action is a
status-1 exit for one of the inner-loop fatal reasons. -/
theorem processCopyBuf_fatal_acts (s : RState) (now : Nat) (sendOk : Bool)
    (spi : SpiCode) (buf : List Nat) (s1 : RState) (acts : List Action)
    (h : processCopyBuf s now sendOk spi buf = .fatal s1 acts) :
    ∃ r, ExitReason.isInnerLoopFatal r = true ∧ acts = [Action.procExit 1 r] := by
  unfold processCopyBuf at h
  split_ifs at h <;>
    first
      | exact StepOut.noConfusion h
      | (injection h with e1 e2; subst e2;
         first
           | exact ⟨ExitReason.truncatedKeepalive, rfl, rfl⟩
           | exact ⟨ExitReason.feedbackFail, rfl, rfl⟩
           | exact ⟨ExitReason.unknownTag, rfl, rfl⟩
           | exact ⟨ExitReason.truncatedWal, rfl, rfl⟩)

/-- C10: a drain cycle commits its transaction exactly when no
inner-loop fatal exit (truncated keepalive header, unknown frame tag,
truncated WalData header, failed feedback send) occurs in its trace:
such an exit always happens before the commit, so the commit is
reached only when the inner receive loop ends with no data pending,
end of stream, or a read failure, and after an inner-loop fatal exit
no statement of the batch is committed. -/
theorem commit_iff_no_inner_fatal (s : RState) (now : Nat) (evs : List ReadEvent) :
    Action.commit ∈ (drainTrace s now evs).1 ↔
      ∀ r : ExitReason, r.isInnerLoopFatal = true →
        Action.procExit 1 r ∉ (drainTrace s now evs).1 := by
  induction evs generalizing s with
  | nil => simp [drainTrace]
  | cons e rest ih =>
    cases e with
    | data buf spi sendOk =>
      cases hp : processCopyBuf s now sendOk spi buf with
      | next s1 acts =>
        obtain ⟨hc, hpe⟩ := processCopyBuf_next_acts s now sendOk spi buf s1 acts hp
        simp only [drainTrace, hp, List.mem_append]
        constructor
        · intro hmem r hr hin
          rcases hmem with hmem | hmem
          · exact hc hmem
          · rcases hin with hin | hin
            · exact hpe 1 r hin
            · exact ((ih s1).mp hmem) r hr hin
        · intro hall
          refine Or.inr ((ih s1).mpr ?_)
          intro r hr hin
          exact hall r hr (Or.inr hin)
      | fatal s1 acts =>
        obtain ⟨r, hr, rfl⟩ := processCopyBuf_fatal_acts s now sendOk spi buf s1 acts hp
        simp only [drainTrace, hp]
        constructor
        · intro hmem
          simp at hmem
        · intro hall
          exact absurd (by simp : Action.procExit 1 r ∈ [Action.procExit 1 r])
            (hall r hr)
    | wouldBlock => simp [drainTrace]
    | endOfStream => simp [drainTrace]
    | readError =>
      simp only [drainTrace]
      constructor
      · intro _ r hr hin
        simp at hin
        subst hin
        simp [ExitReason.isInnerLoopFatal] at hr
      · intro _
        simp

/-- Witness for C10 on a cycle that hits an unknown tag: the fatal
exit is in the trace and the commit is not. -/
theorem commit_iff_no_inner_fatal_witness :
    Action.commit ∈ (drainTrace initState 0 [ReadEvent.data [120] SpiCode.other true]).1 ↔
      ∀ r : ExitReason, r.isInnerLoopFatal = true →
        Action.procExit 1 r ∉
          (drainTrace initState 0 [ReadEvent.data [120] SpiCode.other true]).1 :=
  commit_iff_no_inner_fatal initState 0 [ReadEvent.data [120] SpiCode.other true]

end ReceiverRaw

namespace HookUtility

/-- C9: the utility hook raises its insufficient-privilege error
exactly when the statement is a DROP DATABASE naming the configured
restricted database and the current user name differs from the
configured authorized user name; on every other statement, and for the
authorized user, it raises no error of its own. -/
theorem dbrestrict_raises_iff (hook_dbname hook_username : String)
    (parsetree : UtilityStmt) (username : String) :
    dbrestrict_utility hook_dbname hook_username parsetree username = true ↔
      (parsetree = UtilityStmt.dropdbStmt hook_dbname ∧ username ≠ hook_username) := by
  cases parsetree with
  | dropdbStmt n => simp [dbrestrict_utility]
  | otherStmt => simp [dbrestrict_utility]

/-- Witness for C9 at concrete configuration and user names. -/
theorem dbrestrict_raises_iff_witness :
    dbrestrict_utility "postgres" "postgres"
        (UtilityStmt.dropdbStmt "postgres") "alice" = true ↔
      (UtilityStmt.dropdbStmt "postgres" = UtilityStmt.dropdbStmt "postgres" ∧
       ("alice" : String) ≠ "postgres") :=
  dbrestrict_raises_iff "postgres" "postgres"
    (UtilityStmt.dropdbStmt "postgres") "alice"

end HookUtility
